import Mathlib

/-!
Verification of the run-scoped layered pipeline of
`agentic-elt-data-warehouse`.

The definitions below are a shallow embedding of the Python sources:

* `src/pipeline/upstream_silver.py`  (run-id helpers, Silver cleaning)
* `src/pipeline/upstream_gold.py`    (run-id helpers, mart builders, `main`)
* `src/pipeline/golden_path.py`      (orchestrator `run_pipeline`, `_generate_run_id`)
* `src/pipeline/bronze_layer.py`     (raw-file copy)

Tables are embedded as a header (list of column names) together with rows of
cells; a cell is either missing (`pandas` NA/NaN), a string, or a number
(numbers are embedded as rationals, so floating-point rounding is out of
scope).  Library string routines used by the sources (`str.strip`,
`str.upper`, `strftime`) are modelled by explicit character-list functions.
-/

namespace DW

/-! ### Character and string helpers (model of Python string library calls) -/

/-- Whitespace for Python `str.strip` (the common ASCII whitespace set). -/
def isSpaceChar (c : Char) : Bool :=
  c = ' ' || c = '\t' || c = '\n' || c = '\r' || c = '\x0b' || c = '\x0c'

/-- Strip on character lists: drop whitespace from both ends. -/
def stripChars (l : List Char) : List Char :=
  ((l.dropWhile isSpaceChar).reverse.dropWhile isSpaceChar).reverse

/-- Model of Python `str.strip` / pandas `.str.strip()`. -/
def stripStr (s : String) : String :=
  String.mk (stripChars s.data)

/-- Model of Python `str.upper` / pandas `.str.upper()`. -/
def upperStr (s : String) : String :=
  String.mk (s.data.map Char.toUpper)

/-- Model of pandas `.str.replace("-", "", regex=False)`: remove all dashes. -/
def removeDashes (s : String) : String :=
  String.mk (s.data.filter (fun c => !(c = '-')))

/-- Hexadecimal digit, as in the character class `[0-9a-fA-F]`. -/
def isHexChar (c : Char) : Bool :=
  c.isDigit || ('a' ≤ c && c ≤ 'f') || ('A' ≤ c && c ≤ 'F')

/-! ### Run-id format
`RUN_ID_RE = ^(?P<ts>\d{8}_\d{6})_#(?P<suffix>[0-9a-fA-F]{6,32})$`, shared by
`upstream_silver.py` and `upstream_gold.py`. -/

/-- Consume exactly `n` decimal digits from the front of `l`, returning the
remainder, or `none` if a non-digit (or the end) is hit first. -/
def consumeDigits : Nat → List Char → Option (List Char)
  | 0, l => some l
  | _ + 1, [] => none
  | n + 1, c :: r => if c.isDigit then consumeDigits n r else none

/-- The anchored regex `RUN_ID_RE` on a character list:
eight digits, `_`, six digits, `_#`, then 6–32 hex characters. -/
def runIdMatchesL (l : List Char) : Bool :=
  match consumeDigits 8 l with
  | none => false
  | some r1 =>
    match r1 with
    | [] => false
    | c :: r2 =>
      c = '_' &&
        (match consumeDigits 6 r2 with
         | none => false
         | some r3 =>
           match r3 with
           | c1 :: c2 :: suf =>
             c1 = '_' && c2 = '#' && suf.all isHexChar &&
               decide (6 ≤ suf.length) && decide (suf.length ≤ 32)
           | _ => false)

/-- The `RUN_ID_RE.match(s)` is not `None`. -/
def runIdMatches (s : String) : Bool :=
  runIdMatchesL s.data

/-- The `suffix` group of a matching run id: everything after the first 17
characters (`\d{8}_\d{6}_#` has length 17). -/
def runIdSuffix (s : String) : List Char :=
  s.data.drop 17

/-- The `ts` group of a matching run id: its first 15 characters. -/
def runIdTs (s : String) : List Char :=
  s.data.take 15

/-! ### Timestamps
A Python `datetime` restricted to the fields used by the formats; `strftime`
zero-pads `%m %d %H %M %S` to two digits and prints the year with `%Y`
(four digits for 1000 ≤ year ≤ 9999, the only range reachable here). -/

structure PTimestamp where
  year : Nat
  month : Nat
  day : Nat
  hour : Nat
  minute : Nat
  second : Nat
deriving DecidableEq

/-- Field ranges guaranteed by `datetime` (years below 1000 are excluded
because platform `strftime` does not zero-pad them; `utcnow()` cannot
produce them). -/
def PTimestamp.Valid (t : PTimestamp) : Prop :=
  1000 ≤ t.year ∧ t.year ≤ 9999 ∧ 1 ≤ t.month ∧ t.month ≤ 12 ∧
    1 ≤ t.day ∧ t.day ≤ 31 ∧ t.hour ≤ 23 ∧ t.minute ≤ 59 ∧ t.second ≤ 59

instance (t : PTimestamp) : Decidable t.Valid := by
  unfold PTimestamp.Valid; infer_instance

/-- Zero-padded fixed-width decimal rendering: the `w` digits of `n` from the
most significant (models `%04d` / `%02d` for in-range values). -/
def padDigits (w n : Nat) : List Char :=
  (List.range w).map (fun i => Nat.digitChar (n / 10 ^ (w - 1 - i) % 10))

/-- The `now.strftime("%Y%m%d_%H%M%S")`. -/
def formatTsBasic (t : PTimestamp) : List Char :=
  padDigits 4 t.year ++ padDigits 2 t.month ++ padDigits 2 t.day ++
    '_' :: (padDigits 2 t.hour ++ padDigits 2 t.minute ++ padDigits 2 t.second)

/-- The `upstream_silver.make_silver_run_id_from_bronze`: reject a parent id that
does not match `RUN_ID_RE`, otherwise keep its suffix under a fresh
timestamp. -/
def make_silver_run_id_from_bronze (bronzeRunId : String) (now : PTimestamp) :
    Except String String :=
  if runIdMatches bronzeRunId then
    Except.ok (String.mk (formatTsBasic now ++ '_' :: '#' :: runIdSuffix bronzeRunId))
  else
    Except.error ("Invalid bronze run id format: " ++ bronzeRunId)

/-- The `upstream_gold.make_gold_run_id_from_silver`: same derivation, different
error message. -/
def make_gold_run_id_from_silver (silverRunId : String) (now : PTimestamp) :
    Except String String :=
  if runIdMatches silverRunId then
    Except.ok (String.mk (formatTsBasic now ++ '_' :: '#' :: runIdSuffix silverRunId))
  else
    Except.error ("Invalid silver run_id format: " ++ silverRunId)

/-- The `now.strftime("%Y%m%dT%H%M%SZ")`, used by `golden_path._generate_run_id`. -/
def generateRunIdTs (t : PTimestamp) : List Char :=
  padDigits 4 t.year ++ padDigits 2 t.month ++ padDigits 2 t.day ++
    'T' :: (padDigits 2 t.hour ++ padDigits 2 t.minute ++ padDigits 2 t.second ++ ['Z'])

/-- The `golden_path._generate_run_id`: UTC timestamp in `%Y%m%dT%H%M%SZ` form,
an underscore, then four random uppercase letters (the random draw is the
`suffix` argument here). -/
def generate_run_id (t : PTimestamp) (suffix : List Char) : String :=
  String.mk (generateRunIdTs t ++ '_' :: suffix)

/-! ### Orchestrator (`golden_path.run_pipeline`)
Each pipeline step is an external call; its behaviour is an input of the
model: `none` means the step returns normally, `some msg` means it raises an
exception rendering as `msg`.  The orchestrator wraps every step in
`try/except`: on success it records `"success"`, on an exception it records
`"failure: <msg>"` and immediately re-raises.  `run_manifest.json` and
`data_policy.json` are written by the two calls at the very end of the
function body, reached only when no step raised. -/

structure PipelineSteps where
  bronze : Option String
  silver : Option String
  gold : Option String
  eda : Option String
  featureEngineering : Option String
  segmentation : Option String
  finalReport : Option String
deriving DecidableEq

/-- The steps in the order `run_pipeline` executes them. -/
def stepList (s : PipelineSteps) : List (String × Option String) :=
  [("bronze", s.bronze), ("silver", s.silver), ("gold", s.gold), ("eda", s.eda),
   ("feature_engineering", s.featureEngineering),
   ("segmentation", s.segmentation), ("final_report", s.finalReport)]

/-- Run the `try/except/raise` chain: statuses recorded in execution order,
stopping at (and re-raising) the first exception. -/
def runSteps : List (String × Option String) → List (String × String) × Option String
  | [] => ([], none)
  | (n, none) :: rest =>
    let p := runSteps rest
    ((n, "success") :: p.1, p.2)
  | (n, some m) :: _ => ([(n, "failure: " ++ m)], some m)

structure PipelineResult where
  stepStatus : List (String × String)
  manifestWritten : Bool
  policyWritten : Bool
  raised : Option String
deriving DecidableEq

/-- The `golden_path.run_pipeline` (with the run id and seeding elided: they do
not affect which files are written): execute the steps, then — only if
control reaches the end of the body — write the manifest and the data
policy. -/
def run_pipeline (s : PipelineSteps) : PipelineResult :=
  let p := runSteps (stepList s)
  { stepStatus := p.1
    manifestWritten := p.2.isNone
    policyWritten := p.2.isNone
    raised := p.2 }

/-! ### Artifact writes (`upstream_gold.write_csv`, `bronze_layer._copy_raw_to_bronze`)
`write_csv` is `with_retry(lambda: df.to_csv(path, index=False))` and the
Bronze copy is `dest_path.write_bytes(file_path.read_bytes())`: both open the
destination itself for writing — no `.tmp` sibling is ever created and no
rename happens.  The model writes a list of chunks to the destination;
`failAfter = some k` injects an I/O failure once `k` chunks are on disk
(`with_retry` re-runs the same direct write, so a run whose attempts all
fail still ends in this state). -/

structure WriteState where
  dest : Option (List Nat)
  tmp : Option (List Nat)
deriving DecidableEq

/-- Direct write of `chunks` to the destination: opening truncates/creates
the destination, chunks are appended in order; the second component reports
whether the injected failure raised. -/
def directWrite (chunks : List (List Nat)) (failAfter : Option Nat) :
    WriteState × Bool :=
  match failAfter with
  | none => ({ dest := some chunks.flatten, tmp := none }, false)
  | some k => ({ dest := some ((chunks.take k).flatten), tmp := none }, true)

/-! ### Tables
A pandas `DataFrame` as a header plus rows of cells.  A cell is missing
(NA/NaN/NaT), a string, or a number; numbers are embedded as rationals.
The sources only use column-wise operations, embedded here as per-cell maps
applied to one (or every) column: no operation below ever drops or inserts a
row. -/

inductive Cell where
  | na : Cell
  | s : String → Cell
  | num : Rat → Cell
deriving DecidableEq

structure Df where
  header : List String
  rows : List (List Cell)
deriving DecidableEq

/-- Index of the first column with the given name. -/
def idxOf? : List String → String → Option Nat
  | [], _ => none
  | h :: t, c => if h = c then some 0 else (idxOf? t c).map (· + 1)

/-- Cell of a row at an index (missing when out of range). -/
def getCell (r : List Cell) (i : Nat) : Cell :=
  r.getD i Cell.na

/-- Apply `f` to the cell at index `i` only. -/
def updateAt : Nat → (Cell → Cell) → List Cell → List Cell
  | _, _, [] => []
  | 0, f, x :: xs => f x :: xs
  | i + 1, f, x :: xs => x :: updateAt i f xs

/-- The `df[col] = f(df[col])` — the identity when the column is absent (every
source call site either guards on `col in df.columns` or is wrapped in a
transform that does). -/
def mapColumn (df : Df) (c : String) (f : Cell → Cell) : Df :=
  match idxOf? df.header c with
  | none => df
  | some i => { header := df.header, rows := df.rows.map (updateAt i f) }

/-- Apply `f` to every cell of the table. -/
def mapCells (df : Df) (f : Cell → Cell) : Df :=
  { header := df.header, rows := df.rows.map (fun r => r.map f) }

/-! ### Silver transformations (`upstream_silver.py`) -/

/-- One cell of `col.astype("string").str.strip()` followed by
`replace({"": pd.NA})` (the base cleaning applies this to string-typed
columns; numeric cells are untouched, as numeric columns are skipped by the
dtype check). -/
def stripCell : Cell → Cell
  | Cell.s v => let t := stripStr v; if t = "" then Cell.na else Cell.s t
  | c => c

/-- The `upstream_silver.base_silver_cleaning`: trim whitespace in string
columns and convert empty strings to NA. -/
def base_silver_cleaning (df : Df) : Df :=
  mapCells df stripCell

/-- Digits to a natural number, most significant first. -/
def digitsToNat (l : List Char) : Nat :=
  l.foldl (fun acc c => acc * 10 + (c.toNat - 48)) 0

/-- Unsigned decimal number: digits with an optional fractional part. -/
def parseUnsigned (l : List Char) : Option Rat :=
  let intPart := l.takeWhile Char.isDigit
  let rest := l.drop intPart.length
  match rest with
  | [] => if intPart.isEmpty then none else some (digitsToNat intPart)
  | '.' :: frac =>
    if frac.all Char.isDigit && !(intPart.isEmpty && frac.isEmpty) then
      some ((digitsToNat intPart : Rat) + (digitsToNat frac : Rat) / (10 ^ frac.length))
    else none
  | _ => none

/-- Model of the numeric literals accepted by `pd.to_numeric`: optional
sign, digits, optional decimal point, surrounded by optional whitespace. -/
def parseNumber (v : String) : Option Rat :=
  match stripChars v.data with
  | '-' :: rest => (parseUnsigned rest).map (fun q => -q)
  | '+' :: rest => parseUnsigned rest
  | l => parseUnsigned l

/-- One cell of `pd.to_numeric(col, errors="coerce")`: unparseable values
become missing. -/
def toNumericCell : Cell → Cell
  | Cell.na => Cell.na
  | Cell.num v => Cell.num v
  | Cell.s v =>
    match parseNumber v with
    | none => Cell.na
    | some q => Cell.num q

/-- The `upstream_silver.normalize_numeric_column`. -/
def normalize_numeric_column (df : Df) (col : String) : Df :=
  mapColumn df col toNumericCell

/-- The `upstream_silver.normalize_integer_id`: `pd.to_numeric(...).astype("Int64")`.
The `Int64` cast is the identity on the numeric values kept here (on a
non-integral float it would raise instead; no claim depends on that). -/
def normalize_integer_id (df : Df) (col : String) : Df :=
  mapColumn df col toNumericCell

/-- The `YYYY-MM-DD` with in-range month and day (the ISO form accepted by
`pd.to_datetime`; other accepted spellings are out of scope and no claim
depends on them). -/
def parseIsoDate (v : String) : Option (Nat × Nat × Nat) :=
  match v.data with
  | [y1, y2, y3, y4, '-', m1, m2, '-', d1, d2] =>
    if [y1, y2, y3, y4, m1, m2, d1, d2].all Char.isDigit then
      let m := digitsToNat [m1, m2]
      let d := digitsToNat [d1, d2]
      if 1 ≤ m && m ≤ 12 && 1 ≤ d && d ≤ 31 then
        some (digitsToNat [y1, y2, y3, y4], m, d)
      else none
    else none
  | _ => none

def formatIsoDate (d : Nat × Nat × Nat) : String :=
  String.mk (padDigits 4 d.1 ++ '-' :: padDigits 2 d.2.1 ++ '-' :: padDigits 2 d.2.2)

/-- One cell of `pd.to_datetime(col, errors="coerce").dt.date.astype("string")`
with the `NaT` sentinel replaced by NA. -/
def toDateCell : Cell → Cell
  | Cell.s v =>
    match parseIsoDate (stripStr v) with
    | some d => Cell.s (formatIsoDate d)
    | none => Cell.na
  | _ => Cell.na

/-- The `upstream_silver.normalize_date_column`. -/
def normalize_date_column (df : Df) (col : String) : Df :=
  mapColumn df col toDateCell

/-- One cell of the `cst_gndr` harmonization in
`upstream_silver.transform_cst_info`: strip, upper-case, then the `replace`
dictionary `MALE/FEMALE/F/M → M/F`, and `""/NAN/NONE/NULL → NA`; any other
value is left as-is (upper-cased). -/
def gndrCell : Cell → Cell
  | Cell.s v =>
    let t := upperStr (stripStr v)
    if t = "MALE" then Cell.s "M"
    else if t = "FEMALE" then Cell.s "F"
    else if t = "F" then Cell.s "F"
    else if t = "M" then Cell.s "M"
    else if t = "" then Cell.na
    else if t = "NAN" then Cell.na
    else if t = "NONE" then Cell.na
    else if t = "NULL" then Cell.na
    else Cell.s t
  | c => c

/-- One cell of the final sweep in `transform_cst_info`:
`replace({"": NA, "nan": NA, "NaN": NA, "null": NA, "NULL": NA})`. -/
def sentinelCell : Cell → Cell
  | Cell.s v =>
    if v = "" ∨ v = "nan" ∨ v = "NaN" ∨ v = "null" ∨ v = "NULL" then Cell.na
    else Cell.s v
  | c => c

/-- The `upstream_silver.transform_cst_info`: base cleaning, integer id, create
date, extra trims, gender harmonization, then the sentinel sweep over every
column. -/
def transform_cst_info (df : Df) : Df :=
  let df1 := base_silver_cleaning df
  let df2 := normalize_integer_id df1 "cst_id"
  let df3 := normalize_date_column df2 "cst_create_date"
  let df4 := mapColumn (mapColumn (mapColumn df3 "cst_firstname" stripCell)
    "cst_lastname" stripCell) "cst_marital_status" stripCell
  let df5 := mapColumn df4 "cst_gndr" gndrCell
  mapCells df5 sentinelCell

/-- Python `str.lower`. -/
def lowerStr (v : String) : String :=
  String.mk (v.data.map Char.toLower)

/-- The `upstream_silver.transform_for_silver`: dispatch on the lower-cased
filename; `cst_info.csv` gets the specific transform, everything else the
base cleaning. -/
def transform_for_silver (filename : String) (df : Df) : Df :=
  if lowerStr filename = "cst_info.csv" then transform_cst_info df
  else base_silver_cleaning df

/-! ### The gender harmonization, characterized -/

/-- Claim C6 as amended, as a cell map (this definition follows the amended
claim's words, to be compared with the transform embedded from the source):
a value whose stripped upper-cased form is `MALE`/`M` becomes `M`,
`FEMALE`/`F` becomes `F`, the stripped-empty and the `NAN`/`NONE`/`NULL`
sentinels become missing, and any other value remains as its stripped
upper-cased form. -/
def gndrSpecMap : Cell → Cell
  | Cell.s v =>
    let u := upperStr (stripStr v)
    if u = "MALE" ∨ u = "M" then Cell.s "M"
    else if u = "FEMALE" ∨ u = "F" then Cell.s "F"
    else if u = "" ∨ u = "NAN" ∨ u = "NONE" ∨ u = "NULL" then Cell.na
    else Cell.s u
  | c => c

/-! ### Gold layer (`upstream_gold.py`)
Mart builders over the table model.  pandas semantics embedded here:
`.astype(str)` renders NaN as the string `"nan"`; `merge(..., how="left")`
matches only non-null equal keys and emits one row per match (or one
NA-padded row when there is no match); `drop_duplicates` keeps the first
occurrence and treats NaN keys as equal; `groupby(..., dropna=False)` keeps
NA keys as their own group (groups appear here in first-occurrence order —
pandas emits them sorted, which no claim depends on). -/

/-- String rendering of a number by `.astype(str)` (a crude model of
`str(float)`; only exercised on string-typed key columns in the claims). -/
def ratRender (q : Rat) : String :=
  if q.den = 1 then toString q.num ++ ".0" else toString q

/-- One cell of `.astype(str)`. -/
def astypeStrCell : Cell → Cell
  | Cell.na => Cell.s "nan"
  | Cell.s v => Cell.s v
  | Cell.num v => Cell.s (ratRender v)

/-- One cell of `.str.replace("-", "", regex=False)` (missing stays
missing). -/
def removeDashesCell : Cell → Cell
  | Cell.s v => Cell.s (removeDashes v)
  | c => c

/-- Merge-key comparison: null keys never match. -/
def keyMatch : Cell → Cell → Bool
  | Cell.na, _ => false
  | _, Cell.na => false
  | a, b => a == b

/-- Cell of the named column in a row of `df` (missing when absent). -/
def getColCell (df : Df) (c : String) (r : List Cell) : Cell :=
  match idxOf? df.header c with
  | none => Cell.na
  | some i => getCell r i

/-- The `df[name] = f(row)`: overwrite the column when present, append it
otherwise. -/
def withColumn (df : Df) (name : String) (f : List Cell → Cell) : Df :=
  match idxOf? df.header name with
  | none =>
    { header := df.header ++ [name], rows := df.rows.map (fun r => r ++ [f r]) }
  | some i =>
    { header := df.header, rows := df.rows.map (fun r => updateAt i (fun _ => f r) r) }

/-- The `left.merge(right[rcols ∪ {rk}], left_on=lk, right_on=rk, how="left")`,
appending the `rcols` values under the names `newNames` (this also covers
dropping the right key column afterwards and pandas suffix renaming on
collision — the call sites pass the resulting names explicitly). -/
def leftMerge (left right : Df) (lk rk : String) (rcols newNames : List String) : Df :=
  { header := left.header ++ newNames
    rows := (left.rows.map (fun lr =>
      let k := getColCell left lk lr
      let ms := right.rows.filter (fun rr => keyMatch k (getColCell right rk rr))
      match ms with
      | [] => [lr ++ rcols.map (fun _ => Cell.na)]
      | _ => ms.map (fun rr => lr ++ rcols.map (fun c => getColCell right c rr)))).flatten }

/-- The `for col in out_cols: if col not in df.columns: df[col] = None` —
written as a single pass appending every missing column (the loop checks
each column against the header as grown so far; with the duplicate-free
`out_cols` lists of every call site the two are the same table). -/
def ensureCols (df : Df) (cols : List String) : Df :=
  let missing := cols.filter (fun c => (idxOf? df.header c).isNone)
  { header := df.header ++ missing
    rows := df.rows.map (fun r => r ++ missing.map (fun _ => Cell.na)) }

/-- The `df[cols]`: project to the listed columns in order. -/
def projectCols (df : Df) (cols : List String) : Df :=
  { header := cols, rows := df.rows.map (fun r => cols.map (fun c => getColCell df c r)) }

/-- The cells of the key columns of a row. -/
def rowKey (df : Df) (keys : List String) (r : List Cell) : List Cell :=
  keys.map (fun k => getColCell df k r)

/-- Keep-first deduplication of rows by key, carrying the keys already
seen. -/
def dedupGo {κ : Type} [DecidableEq κ] (key : List Cell → κ) :
    List (List Cell) → List κ → List (List Cell)
  | [], _ => []
  | r :: rs, seen =>
    if key r ∈ seen then dedupGo key rs seen
    else r :: dedupGo key rs (key r :: seen)

/-- The `df.drop_duplicates(subset=keys)` (keep="first", the pandas default). -/
def drop_duplicates (df : Df) (keys : List String) : Df :=
  { header := df.header, rows := dedupGo (rowKey df keys) df.rows [] }

/-- Keep-first deduplication of a list of keys. -/
def dedupKeys {κ : Type} [DecidableEq κ] : List κ → List κ → List κ
  | [], _ => []
  | k :: ks, seen =>
    if k ∈ seen then dedupKeys ks seen else k :: dedupKeys ks (k :: seen)

def dimCustomerOutCols : List String :=
  ["cst_id", "cst_key", "cst_firstname", "cst_lastname", "cst_marital_status",
   "cst_gndr", "cst_create_date", "CID", "BDATE", "GEN", "CNTRY"]

/-- The `upstream_gold.build_gold_dim_customer`: numeric `cst_id`, stringified
`cst_key`, birth/gender enrichment joined on the hyphen-stripped key,
country enrichment likewise, then dedup on `cst_id` and projection.  (When
`cst_az12` is absent no `CID` column exists; a subsequent `loc` merge keys
on an all-missing `CID` here, where pandas would raise a `KeyError` — no
claim exercises that corner.) -/
def build_gold_dim_customer (cst_info : Df) (cst_az12 : Option Df) (loc : Option Df) : Df :=
  let cst0 := mapColumn cst_info "cst_id" toNumericCell
  let cst1 := mapColumn cst0 "cst_key" astypeStrCell
  let cst2 :=
    match cst_az12 with
    | some az0 =>
      let az1 := mapColumn az0 "CID" astypeStrCell
      let az2 := mapColumn az1 "BDATE" toNumericCell
      let az3 := mapColumn az2 "GEN" astypeStrCell
      let cstc := withColumn cst1 "CID"
        (fun r => removeDashesCell (getColCell cst1 "cst_key" r))
      let az4 := withColumn az3 "CID_norm"
        (fun r => removeDashesCell (getColCell az3 "CID" r))
      leftMerge cstc az4 "CID" "CID_norm" ["BDATE", "GEN"] ["BDATE", "GEN"]
    | none =>
      withColumn (withColumn cst1 "BDATE" (fun _ => Cell.na)) "GEN" (fun _ => Cell.na)
  let cst3 :=
    match loc with
    | some loc0 =>
      let l1 := mapColumn loc0 "CID" astypeStrCell
      let l2 := withColumn l1 "CID_norm"
        (fun r => removeDashesCell (getColCell l1 "CID" r))
      leftMerge cst2 l2 "CID" "CID_norm" ["CNTRY"] ["CNTRY"]
    | none => withColumn cst2 "CNTRY" (fun _ => Cell.na)
  projectCols (drop_duplicates (ensureCols cst3 dimCustomerOutCols) ["cst_id"])
    dimCustomerOutCols

def dimProductOutCols : List String :=
  ["prd_id", "prd_key", "prd_nm", "prd_cost", "prd_line", "prd_start_dt",
   "prd_end_dt", "ID", "CAT", "SUBCAT", "MAINTENANCE"]

/-- The `upstream_gold.build_gold_dim_product`. -/
def build_gold_dim_product (prd_info : Df) (px_cat : Option Df) : Df :=
  let prd0 := mapColumn prd_info "prd_key" astypeStrCell
  let prd1 := withColumn prd0 "prd_id" (fun r => getColCell prd0 "prd_key" r)
  let prd2 :=
    match px_cat with
    | some px0 =>
      let px1 := mapColumn px0 "ID" astypeStrCell
      leftMerge prd1 px1 "prd_key" "ID" ["ID", "CAT", "SUBCAT", "MAINTENANCE"]
        ["ID", "CAT", "SUBCAT", "MAINTENANCE"]
    | none =>
      let p2 := withColumn prd1 "ID" (fun r => getColCell prd1 "prd_key" r)
      withColumn (withColumn (withColumn p2 "CAT" (fun _ => Cell.na))
        "SUBCAT" (fun _ => Cell.na)) "MAINTENANCE" (fun _ => Cell.na)
  projectCols (drop_duplicates (ensureCols prd2 dimProductOutCols) ["prd_id"])
    dimProductOutCols

def dimLocationOutCols : List String := ["CID", "CNTRY"]

/-- The `upstream_gold.build_gold_dim_location`. -/
def build_gold_dim_location (loc : Df) : Df :=
  let l1 := mapColumn loc "CID" astypeStrCell
  let l2 := drop_duplicates l1 ["CID"]
  projectCols (ensureCols l2 dimLocationOutCols) dimLocationOutCols

def factSalesCols : List String :=
  ["sls_ord_num", "sls_prd_key", "sls_cust_id", "sls_sales", "sls_quantity",
   "sls_price", "sls_order_dt", "sls_ship_dt", "sls_due_dt"]

/-- The `upstream_gold.build_gold_fact_sales`: fill the expected columns with
NA when absent, deduplicate on the composite order+product key (keep
first), project. -/
def build_gold_fact_sales (sales : Df) : Df :=
  let f := ensureCols sales factSalesCols
  projectCols (drop_duplicates f ["sls_ord_num", "sls_prd_key"]) factSalesCols

/-- Python `int(x)` on a cell: floats truncate, strings must be integer
literals; anything else fails. -/
def parseIntCell : Cell → Option Int
  | Cell.num v => some v.floor
  | Cell.s v =>
    match stripChars v.data with
    | '-' :: ds =>
      if !ds.isEmpty && ds.all Char.isDigit then some (-(digitsToNat ds : Int)) else none
    | '+' :: ds =>
      if !ds.isEmpty && ds.all Char.isDigit then some (digitsToNat ds) else none
    | ds =>
      if !ds.isEmpty && ds.all Char.isDigit then some (digitsToNat ds) else none
  | Cell.na => none

/-- Decimal digits of `n`, zero-padded to at least `w` (Python `:0wd`). -/
def padMin (w n : Nat) : List Char :=
  if n < 10 ^ w then padDigits w n else (toString n).data

/-- The `upstream_gold.int_to_date`: positive integers become `YYYY-MM-DD`. -/
def int_to_date (c : Cell) : Option String :=
  match parseIntCell c with
  | none => none
  | some i =>
    if i ≤ 0 then none
    else
      let n := i.toNat
      some (String.mk (padMin 4 (n / 10000) ++ '-' :: padDigits 2 (n / 100 % 100)
        ++ '-' :: padDigits 2 (n % 100)))

/-- The per-cell body of `add_period_month`:
`int_to_date(x)[:7] if pd.notnull(x) and int_to_date(x) else None`. -/
def periodCell (c : Cell) : Cell :=
  if c = Cell.na then Cell.na
  else
    match int_to_date c with
    | none => Cell.na
    | some d => Cell.s (String.mk (d.data.take 7))

/-- The `upstream_gold.add_period_month` (all call sites use `out_col="period"`). -/
def add_period_month (df : Df) (dateCol : String) : Df :=
  withColumn df "period" (fun r => periodCell (getColCell df dateCol r))

/-- The `upstream_gold.build_gold_agg_exec_kpis`'s `safe_div`:
`float(a)/float(b) if b else None`. -/
def safe_div (a b : Rat) : Option Rat :=
  if b = 0 then none else some (a / b)

def cellOfOpt : Option Rat → Cell
  | none => Cell.na
  | some q => Cell.num q

/-- One cell of `.fillna(repl)`. -/
def fillnaCell (repl : String) : Cell → Cell
  | Cell.na => Cell.s repl
  | c => c

/-- Column sum with NaN skipped (pandas default `skipna=True`; non-numeric
cells do not occur in the summed columns). -/
def sumNum (cells : List Cell) : Rat :=
  cells.foldr (fun c acc => match c with | Cell.num v => v + acc | _ => acc) 0

/-- The `.nunique()`: distinct non-null values. -/
def nuniqueCells (cells : List Cell) : Nat :=
  (dedupKeys (cells.filter (fun c => !(c = Cell.na))) []).length

/-- The sales table enriched for the KPI aggregation: period column,
customer segment (marital status filled with `Unknown`, or the constant
`All` when the column is absent), customer join. -/
def kpiMergedInput (fact dim : Df) : Df :=
  let sales0 := add_period_month fact "sls_order_dt"
  let cust0 := mapColumn dim "cst_id" toNumericCell
  let cust1 :=
    if (idxOf? cust0.header "cst_marital_status").isSome then
      withColumn cust0 "customer_segment"
        (fun r => fillnaCell "Unknown" (getColCell cust0 "cst_marital_status" r))
    else withColumn cust0 "customer_segment" (fun _ => Cell.s "All")
  let sales1 := mapColumn sales0 "sls_cust_id" toNumericCell
  leftMerge sales1 cust1 "sls_cust_id" "cst_id" ["cst_id", "customer_segment"]
    ["cst_id", "customer_segment"]

structure AggRow where
  period : Cell
  segment : Cell
  totalSales : Rat
  orderCount : Nat
  customerCount : Nat
deriving DecidableEq

/-- The grouped aggregation of `build_gold_agg_exec_kpis` before the KPI
columns: period × segment groups with their sum and distinct counts. -/
def aggGroups (fact dim : Df) : List AggRow :=
  let m := kpiMergedInput fact dim
  let key := fun (r : List Cell) =>
    (getColCell m "period" r, getColCell m "customer_segment" r)
  (dedupKeys (m.rows.map key) []).map (fun k =>
    let grp := m.rows.filter (fun r => key r = k)
    { period := k.1
      segment := k.2
      totalSales := sumNum (grp.map (getColCell m "sls_sales"))
      orderCount := nuniqueCells (grp.map (getColCell m "sls_ord_num"))
      customerCount := nuniqueCells (grp.map (getColCell m "sls_cust_id")) })

def execKpiOutCols : List String :=
  ["period", "customer_segment", "Conversion Rate", "Customer Lifetime Value",
   "Return Rate", "Average Order Value", "Customer Retention Rate"]

/-- One output row of the executive-KPI mart: the derived ratios use
`safe_div`, the KPIs without source data are None. -/
def kpiProject (g : AggRow) : List Cell :=
  [g.period, g.segment, Cell.na,
   cellOfOpt (safe_div g.totalSales (g.customerCount : Rat)),
   Cell.na,
   cellOfOpt (safe_div g.totalSales (g.orderCount : Rat)),
   Cell.na]

/-- The `upstream_gold.build_gold_agg_exec_kpis`. -/
def build_gold_agg_exec_kpis (fact dim : Df) : Df :=
  { header := execKpiOutCols, rows := (aggGroups fact dim).map kpiProject }

def prodPerfOutCols : List String :=
  ["prd_id", "period", "prd_line", "CAT", "SUBCAT", "Total_Sales",
   "Total_Quantity_Sold", "Return Rate"]

/-- The `upstream_gold.build_gold_agg_product_performance`. -/
def build_gold_agg_product_performance (fact dimProd : Df) : Df :=
  let sales0 := add_period_month fact "sls_order_dt"
  let m := leftMerge sales0 dimProd "sls_prd_key" "prd_key"
    ["prd_id", "prd_key", "prd_line", "CAT", "SUBCAT"]
    ["prd_id", "prd_key", "prd_line", "CAT", "SUBCAT"]
  let key := fun (r : List Cell) =>
    [getColCell m "prd_id" r, getColCell m "period" r, getColCell m "prd_line" r,
     getColCell m "CAT" r, getColCell m "SUBCAT" r]
  { header := prodPerfOutCols
    rows := (dedupKeys (m.rows.map key) []).map (fun k =>
      let grp := m.rows.filter (fun r => key r = k)
      k ++ [Cell.num (sumNum (grp.map (getColCell m "sls_sales"))),
            Cell.num (sumNum (grp.map (getColCell m "sls_quantity"))),
            Cell.na]) }

def geoPerfOutCols : List String :=
  ["CNTRY", "CAT", "period", "Total_Sales", "Total_Quantity_Sold"]

/-- The `upstream_gold.build_gold_agg_geo_performance`. -/
def build_gold_agg_geo_performance (fact dimLoc dimProd : Df) : Df :=
  let sales0 := add_period_month fact "sls_order_dt"
  let sales1 :=
    if (idxOf? sales0.header "CID").isNone ∧ (idxOf? sales0.header "sls_cust_id").isSome then
      withColumn sales0 "CID" (fun r => astypeStrCell (getColCell sales0 "sls_cust_id" r))
    else sales0
  let l1 := mapColumn dimLoc "CID" astypeStrCell
  let m1 := leftMerge sales1 l1 "CID" "CID" ["CNTRY"] ["CNTRY"]
  let p1 := mapColumn dimProd "prd_key" astypeStrCell
  let m := leftMerge m1 p1 "sls_prd_key" "prd_key" ["prd_key", "CAT"] ["prd_key", "CAT"]
  let key := fun (r : List Cell) =>
    [getColCell m "CNTRY" r, getColCell m "CAT" r, getColCell m "period" r]
  { header := geoPerfOutCols
    rows := (dedupKeys (m.rows.map key) []).map (fun k =>
      let grp := m.rows.filter (fun r => key r = k)
      k ++ [Cell.num (sumNum (grp.map (getColCell m "sls_sales"))),
            Cell.num (sumNum (grp.map (getColCell m "sls_quantity")))]) }

def wideOutCols : List String :=
  ["sls_ord_num", "sls_prd_key", "sls_cust_id", "sls_sales", "sls_quantity",
   "sls_price", "cst_id", "cst_key", "cst_marital_status", "cst_gndr", "BDATE",
   "GEN", "CNTRY", "prd_id", "prd_key", "prd_nm", "prd_line", "CAT", "SUBCAT"]

/-- The `upstream_gold.build_gold_wide_sales_enriched` (the last merge renames
its appended country column to `CNTRY_loc`, pandas suffix behaviour; the
projection then selects the customer-side `CNTRY`). -/
def build_gold_wide_sales_enriched (fact dimCust dimProd dimLoc : Df) : Df :=
  let cust1 := mapColumn dimCust "cst_id" toNumericCell
  let sales1 := mapColumn fact "sls_cust_id" toNumericCell
  let sales2 := leftMerge sales1 cust1 "sls_cust_id" "cst_id"
    ["cst_id", "cst_key", "cst_marital_status", "cst_gndr", "BDATE", "GEN", "CNTRY"]
    ["cst_id", "cst_key", "cst_marital_status", "cst_gndr", "BDATE", "GEN", "CNTRY"]
  let p1 := mapColumn dimProd "prd_key" astypeStrCell
  let sales3 := leftMerge sales2 p1 "sls_prd_key" "prd_key"
    ["prd_id", "prd_key", "prd_nm", "prd_line", "CAT", "SUBCAT"]
    ["prd_id", "prd_key", "prd_nm", "prd_line", "CAT", "SUBCAT"]
  let sales4 :=
    if (idxOf? sales3.header "CID").isNone ∧ (idxOf? sales3.header "cst_key").isSome then
      withColumn sales3 "CID" (fun r => removeDashesCell (getColCell sales3 "cst_key" r))
    else sales3
  let l1 := mapColumn dimLoc "CID" astypeStrCell
  let sales5 := leftMerge sales4 l1 "CID" "CID" ["CNTRY"] ["CNTRY_loc"]
  projectCols (ensureCols sales5 wideOutCols) wideOutCols

/-! ### Gold `main`: validation and the build sequence -/

/-- The `upstream_gold.REQUIRED_SCHEMAS`. -/
def REQUIRED_SCHEMAS : List (String × List String) :=
  [("sales_details.csv", factSalesCols),
   ("prd_info.csv",
    ["prd_key", "prd_nm", "prd_cost", "prd_line", "prd_start_dt", "prd_end_dt"]),
   ("PX_CAT_G1V2.csv", ["ID", "CAT", "SUBCAT", "MAINTENANCE"]),
   ("cst_info.csv",
    ["cst_id", "cst_key", "cst_firstname", "cst_lastname", "cst_marital_status",
     "cst_gndr", "cst_create_date"]),
   ("CST_AZ12.csv", ["CID", "BDATE", "GEN"]),
   ("LOC_A101.csv", ["CID", "CNTRY"])]

/-- The `upstream_gold.validate_required_columns` (the Python message also
quotes each column name; the quotes are elided here). -/
def validate_required_columns (df : Df) (required : List String)
    (tableName : String) : List String :=
  let missing := required.filter (fun c => (idxOf? df.header c).isNone)
  if missing.isEmpty then []
  else [tableName ++ " missing columns: [" ++ String.intercalate ", " missing ++ "]"]

/-- The six Silver tables as loaded by `main` (a `none` is a missing file:
`load_csv` returned `None`). -/
structure GoldInputs where
  sales : Option Df
  prd_info : Option Df
  px_cat : Option Df
  cst_info : Option Df
  cst_az12 : Option Df
  loc : Option Df

/-- The validation loop's iteration order in `main`. -/
def validationOrder (inp : GoldInputs) : List (String × Option Df) :=
  [("sales_details.csv", inp.sales), ("prd_info.csv", inp.prd_info),
   ("PX_CAT_G1V2.csv", inp.px_cat), ("cst_info.csv", inp.cst_info),
   ("CST_AZ12.csv", inp.cst_az12), ("LOC_A101.csv", inp.loc)]

/-- The validation loop: skip absent tables, raise `ValueError` at the
first loaded table with a missing required column (`"; ".join` of a
one-element list is that element). -/
def firstErr : List (String × Option Df) → Option String
  | [] => none
  | (_, none) :: rest => firstErr rest
  | (name, some df) :: rest =>
    match validate_required_columns df ((REQUIRED_SCHEMAS.lookup name).getD []) name with
    | [] => firstErr rest
    | e :: _ => some e

structure GoldOutput where
  name : String
  table : Df
deriving DecidableEq

/-- The eight mart-building steps of `main`'s try block (reached only when
validation raised nothing): each step is guarded by the presence of its
source tables; an absent required table contributes an error entry for
steps 1–4 and a silent skip for steps 5–8. -/
def goldBuild (inp : GoldInputs) : List GoldOutput × List String :=
  let s1 : List GoldOutput × List String :=
    match inp.cst_info with
    | some c => ([⟨"gold_dim_customer", build_gold_dim_customer c inp.cst_az12 inp.loc⟩], [])
    | none => ([], ["cst_info.csv is required for gold_dim_customer"])
  let s2 : List GoldOutput × List String :=
    match inp.prd_info with
    | some p => ([⟨"gold_dim_product", build_gold_dim_product p inp.px_cat⟩], [])
    | none => ([], ["prd_info.csv is required for gold_dim_product"])
  let s3 : List GoldOutput × List String :=
    match inp.loc with
    | some l => ([⟨"gold_dim_location", build_gold_dim_location l⟩], [])
    | none => ([], ["LOC_A101.csv is required for gold_dim_location"])
  let s4 : List GoldOutput × List String :=
    match inp.sales with
    | some s => ([⟨"gold_fact_sales", build_gold_fact_sales s⟩], [])
    | none => ([], ["sales_details.csv is required for gold_fact_sales"])
  let s5 : List GoldOutput :=
    match inp.sales, inp.cst_info with
    | some s, some c =>
      [⟨"gold_agg_exec_kpis", build_gold_agg_exec_kpis (build_gold_fact_sales s)
        (build_gold_dim_customer c inp.cst_az12 inp.loc)⟩]
    | _, _ => []
  let s6 : List GoldOutput :=
    match inp.sales, inp.prd_info with
    | some s, some p =>
      [⟨"gold_agg_product_performance", build_gold_agg_product_performance
        (build_gold_fact_sales s) (build_gold_dim_product p inp.px_cat)⟩]
    | _, _ => []
  let s7 : List GoldOutput :=
    match inp.sales, inp.loc, inp.prd_info with
    | some s, some l, some p =>
      [⟨"gold_agg_geo_performance", build_gold_agg_geo_performance
        (build_gold_fact_sales s) (build_gold_dim_location l)
        (build_gold_dim_product p inp.px_cat)⟩]
    | _, _, _ => []
  let s8 : List GoldOutput :=
    match inp.sales, inp.cst_info, inp.prd_info, inp.loc with
    | some s, some c, some p, some l =>
      [⟨"gold_wide_sales_enriched", build_gold_wide_sales_enriched
        (build_gold_fact_sales s) (build_gold_dim_customer c inp.cst_az12 inp.loc)
        (build_gold_dim_product p inp.px_cat) (build_gold_dim_location l)⟩]
    | _, _, _, _ => []
  (s1.1 ++ s2.1 ++ s3.1 ++ s4.1 ++ s5 ++ s6 ++ s7 ++ s8,
   s1.2 ++ s2.2 ++ s3.2 ++ s4.2)

structure GoldResult where
  outputs : List GoldOutput
  errors : List String
  status : String
deriving DecidableEq

/-- The `upstream_gold.main`, reduced to its dataflow: the whole try block is
aborted by the first validation `ValueError`, which the single `except`
turns into one `UNHANDLED` error entry with nothing built; otherwise the
build sequence runs and status is `success` exactly when the error list is
empty. -/
def gold_main (inp : GoldInputs) : GoldResult :=
  match firstErr (validationOrder inp) with
  | some msg =>
    { outputs := []
      errors := ["UNHANDLED gold build failure: ValueError: " ++ msg]
      status := "partial" }
  | none =>
    let b := goldBuild inp
    { outputs := b.1, errors := b.2
      status := if b.2.isEmpty then "success" else "partial" }

def c7row1 : List Cell :=
  [Cell.s "O1", Cell.s "P1", Cell.s "C1", Cell.na, Cell.na, Cell.na, Cell.na,
   Cell.na, Cell.na]

def c7row2 : List Cell :=
  [Cell.s "O1", Cell.s "P2", Cell.s "C2", Cell.na, Cell.na, Cell.na, Cell.na,
   Cell.na, Cell.na]

def c7row3 : List Cell :=
  [Cell.s "O1", Cell.s "P1", Cell.s "C3", Cell.na, Cell.na, Cell.na, Cell.na,
   Cell.na, Cell.na]

/-- A sales table whose first and third rows share the composite key. -/
def c7Sales : Df :=
  { header := factSalesCols, rows := [c7row1, c7row2, c7row3] }

/-- One sale of 100 on 2020-01-15 by customer 10. -/
def c8Fact : Df :=
  { header := factSalesCols
    rows := [[Cell.s "O1", Cell.s "P1", Cell.num 10, Cell.num 100, Cell.num 2,
      Cell.num 50, Cell.num 20200115, Cell.na, Cell.na]] }

/-- The matching customer-dimension row (segment `S`). -/
def c8Dim : Df :=
  { header := dimCustomerOutCols
    rows := [[Cell.num 10, Cell.s "AW", Cell.s "A", Cell.s "B", Cell.s "S",
      Cell.s "F", Cell.s "2020-01-01", Cell.s "AW", Cell.na, Cell.na, Cell.na]] }

/-! ### PII columns in the gold marts (claim C3) -/

/-- A cst_info table holding a raw first and last name. -/
def c3CstInfo : Df :=
  { header := ["cst_id", "cst_key", "cst_firstname", "cst_lastname",
      "cst_marital_status", "cst_gndr", "cst_create_date"]
    rows := [[Cell.num 1, Cell.s "AW123", Cell.s "Alice", Cell.s "Smith",
      Cell.s "M", Cell.s "F", Cell.s "2020-01-01"]] }

/-! ### Validation aborts the whole gold build (claim C5) -/

def c5Sales : Df := { header := factSalesCols, rows := [] }

def c5Prd : Df :=
  { header := ["prd_key", "prd_nm", "prd_cost", "prd_line", "prd_start_dt",
      "prd_end_dt"], rows := [] }

def c5Px : Df := { header := ["ID", "CAT", "SUBCAT", "MAINTENANCE"], rows := [] }

/-- A loaded cst_info table missing the required `cst_key` column. -/
def c5CstBad : Df :=
  { header := ["cst_id", "cst_firstname", "cst_lastname", "cst_marital_status",
      "cst_gndr", "cst_create_date"], rows := [] }

def c5Az : Df := { header := ["CID", "BDATE", "GEN"], rows := [] }

def c5Loc : Df := { header := ["CID", "CNTRY"], rows := [] }

/-- All six tables loaded; exactly one (cst_info) fails validation. -/
def c5Inputs : GoldInputs :=
  ⟨some c5Sales, some c5Prd, some c5Px, some c5CstBad, some c5Az, some c5Loc⟩

/-! ### Basic lemmas about the run-id machinery -/

theorem consumeDigits_append {n : Nat} {d r : List Char}
    (hlen : d.length = n) (hdig : ∀ c ∈ d, c.isDigit) :
    consumeDigits n (d ++ r) = some r := by
  induction d generalizing n with
  | nil => cases hlen; rfl
  | cons c t ih =>
    cases hlen
    simp only [List.cons_append, consumeDigits]
    rw [if_pos (hdig c (List.mem_cons_self c t))]
    exact ih rfl (fun x hx => hdig x (List.mem_cons_of_mem c hx))

theorem consumeDigits_some {n : Nat} {l r : List Char}
    (h : consumeDigits n l = some r) :
    ∃ d, l = d ++ r ∧ d.length = n ∧ ∀ c ∈ d, c.isDigit := by
  induction n generalizing l with
  | zero =>
    refine ⟨[], ?_, rfl, by simp⟩
    simpa [consumeDigits] using h
  | succ m ih =>
    cases l with
    | nil => simp [consumeDigits] at h
    | cons c t =>
      simp only [consumeDigits] at h
      by_cases hc : c.isDigit
      · rw [if_pos hc] at h
        obtain ⟨d, hdt, hdl, hdd⟩ := ih h
        refine ⟨c :: d, by simp [hdt], by simp [hdl], ?_⟩
        intro x hx
        rcases List.mem_cons.mp hx with hx | hx
        · exact hx ▸ hc
        · exact hdd x hx
      · rw [if_neg hc] at h
        exact absurd h (by simp)

theorem padDigits_length (w n : Nat) : (padDigits w n).length = w := by
  simp [padDigits]

theorem padDigits_isDigit (w n : Nat) : ∀ c ∈ padDigits w n, c.isDigit := by
  intro c hc
  simp only [padDigits, List.mem_map] at hc
  obtain ⟨i, _, hi⟩ := hc
  have hlt : n / 10 ^ (w - 1 - i) % 10 < 10 := Nat.mod_lt _ (by norm_num)
  subst hi
  interval_cases (n / 10 ^ (w - 1 - i) % 10) <;> decide

/-- The eight leading digits of `formatTsBasic`. -/
theorem formatTsBasic_decomp (t : PTimestamp) :
    ∃ d8 d6, formatTsBasic t = d8 ++ '_' :: d6 ∧ d8.length = 8 ∧
      (∀ c ∈ d8, c.isDigit) ∧ d6.length = 6 ∧ ∀ c ∈ d6, c.isDigit := by
  refine ⟨padDigits 4 t.year ++ padDigits 2 t.month ++ padDigits 2 t.day,
    padDigits 2 t.hour ++ padDigits 2 t.minute ++ padDigits 2 t.second, ?_, ?_, ?_, ?_, ?_⟩
  · simp [formatTsBasic]
  · simp [padDigits_length]
  · intro c hc
    rcases List.mem_append.mp hc with hc | hc
    · rcases List.mem_append.mp hc with hc | hc
      · exact padDigits_isDigit _ _ c hc
      · exact padDigits_isDigit _ _ c hc
    · exact padDigits_isDigit _ _ c hc
  · simp [padDigits_length]
  · intro c hc
    rcases List.mem_append.mp hc with hc | hc
    · rcases List.mem_append.mp hc with hc | hc
      · exact padDigits_isDigit _ _ c hc
      · exact padDigits_isDigit _ _ c hc
    · exact padDigits_isDigit _ _ c hc

/-- A derived id `formatTsBasic now ++ "_#" ++ suf` matches `RUN_ID_RE`
whenever the suffix is 6–32 hex characters. -/
theorem runIdMatchesL_derived (t : PTimestamp) (suf : List Char)
    (hhex : suf.all isHexChar = true) (h6 : 6 ≤ suf.length) (h32 : suf.length ≤ 32) :
    runIdMatchesL (formatTsBasic t ++ '_' :: '#' :: suf) = true := by
  obtain ⟨d8, d6, hts, h8len, h8dig, h6len, h6dig⟩ := formatTsBasic_decomp t
  have hshape : formatTsBasic t ++ '_' :: '#' :: suf
      = d8 ++ '_' :: (d6 ++ '_' :: '#' :: suf) := by
    simp [hts]
  rw [hshape]
  have h1 : consumeDigits 8 (d8 ++ '_' :: (d6 ++ '_' :: '#' :: suf))
      = some ('_' :: (d6 ++ '_' :: '#' :: suf)) := consumeDigits_append h8len h8dig
  have h2 : consumeDigits 6 (d6 ++ '_' :: '#' :: suf) = some ('_' :: '#' :: suf) :=
    consumeDigits_append h6len h6dig
  simp [runIdMatchesL, h1, h2, hhex, h6, h32]

/-- Decomposition of any id accepted by `RUN_ID_RE`. -/
theorem runIdMatchesL_elim {l : List Char} (h : runIdMatchesL l = true) :
    ∃ d8 d6 suf, l = d8 ++ '_' :: (d6 ++ '_' :: '#' :: suf) ∧
      d8.length = 8 ∧ (∀ c ∈ d8, c.isDigit) ∧ d6.length = 6 ∧ (∀ c ∈ d6, c.isDigit) ∧
      suf.all isHexChar = true ∧ 6 ≤ suf.length ∧ suf.length ≤ 32 := by
  unfold runIdMatchesL at h
  cases h8 : consumeDigits 8 l with
  | none => rw [h8] at h; exact absurd h (by simp)
  | some r1 =>
    rw [h8] at h
    cases r1 with
    | nil => exact absurd h (by simp)
    | cons c r2 =>
      simp only [Bool.and_eq_true, decide_eq_true_eq] at h
      obtain ⟨hc, hrest⟩ := h
      cases h6 : consumeDigits 6 r2 with
      | none => rw [h6] at hrest; exact absurd hrest (by simp)
      | some r3 =>
        rw [h6] at hrest
        match r3, hrest with
        | c1 :: c2 :: suf, hrest =>
          simp only [Bool.and_eq_true, decide_eq_true_eq] at hrest
          obtain ⟨⟨⟨⟨h1, h2⟩, hhex⟩, hlo⟩, hhi⟩ := hrest
          obtain ⟨d8, hl8, hlen8, hdig8⟩ := consumeDigits_some h8
          obtain ⟨d6, hl6, hlen6, hdig6⟩ := consumeDigits_some h6
          refine ⟨d8, d6, suf, ?_, hlen8, hdig8, hlen6, hdig6, hhex, hlo, hhi⟩
          have hc' : c = '_' := by simpa using hc
          have h1' : c1 = '_' := by simpa using h1
          have h2' : c2 = '#' := by simpa using h2
          subst hc' h1' h2'
          rw [hl8, hl6]

/-- The suffix of a matching id consists of its characters from index 17 on. -/
theorem runIdSuffix_eq {s : String} (h : runIdMatches s = true) :
    ∃ pre, s.data = pre ++ runIdSuffix s ∧ pre.length = 17 := by
  obtain ⟨d8, d6, suf, hl, h8, _, h6, _, _, _, _⟩ := runIdMatchesL_elim h
  have hdata : s.data = (d8 ++ '_' :: (d6 ++ ['_', '#'])) ++ suf := by
    rw [hl]; simp
  have hplen : (d8 ++ '_' :: (d6 ++ ['_', '#'])).length = 17 := by simp [h8, h6]
  have hsuf : runIdSuffix s = suf := by
    unfold runIdSuffix
    rw [hdata, ← hplen, List.drop_left]
  exact ⟨d8 ++ '_' :: (d6 ++ ['_', '#']), by rw [hsuf]; exact hdata, hplen⟩

/-- The suffix of a matching run id is 6–32 hex characters. -/
theorem runIdSuffix_spec {s : String} (h : runIdMatches s = true) :
    (runIdSuffix s).all isHexChar = true ∧
      6 ≤ (runIdSuffix s).length ∧ (runIdSuffix s).length ≤ 32 := by
  obtain ⟨d8, d6, suf, hl, h8, _, h6, _, hhex, hlo, hhi⟩ := runIdMatchesL_elim h
  have hdata : s.data = (d8 ++ '_' :: (d6 ++ ['_', '#'])) ++ suf := by
    rw [hl]; simp
  have hplen : (d8 ++ '_' :: (d6 ++ ['_', '#'])).length = 17 := by simp [h8, h6]
  have hsuf : runIdSuffix s = suf := by
    unfold runIdSuffix
    rw [hdata, ← hplen, List.drop_left]
  rw [hsuf]
  exact ⟨hhex, hlo, hhi⟩

theorem formatTsBasic_length (t : PTimestamp) : (formatTsBasic t).length = 15 := by
  simp [formatTsBasic, padDigits_length]

/-- Claim C9: for every run id matching `RUN_ID_RE` and every timestamp `now`,
both `make_silver_run_id_from_bronze` and `make_gold_run_id_from_silver`
derive an id that again matches the pattern, keeps exactly the parent's hex
suffix, and carries `now`'s timestamp in place of the parent's; a string not
matching the pattern is rejected with an invalid-format error. -/
theorem claim_C9_run_id_derivation (s : String) (now : PTimestamp)
    (hnow : now.Valid) :
    (runIdMatches s = true →
      ∃ r : String,
        make_silver_run_id_from_bronze s now = Except.ok r ∧
        make_gold_run_id_from_silver s now = Except.ok r ∧
        runIdMatches r = true ∧
        runIdSuffix r = runIdSuffix s ∧
        runIdTs r = formatTsBasic now) ∧
    (runIdMatches s = false →
      make_silver_run_id_from_bronze s now =
        Except.error ("Invalid bronze run id format: " ++ s) ∧
      make_gold_run_id_from_silver s now =
        Except.error ("Invalid silver run_id format: " ++ s)) := by
  constructor
  · intro hm
    refine ⟨String.mk (formatTsBasic now ++ '_' :: '#' :: runIdSuffix s), ?_, ?_, ?_, ?_, ?_⟩
    · simp [make_silver_run_id_from_bronze, hm]
    · simp [make_gold_run_id_from_silver, hm]
    · obtain ⟨hhex, hlo, hhi⟩ := runIdSuffix_spec hm
      exact runIdMatchesL_derived now (runIdSuffix s) hhex hlo hhi
    · show (formatTsBasic now ++ '_' :: '#' :: runIdSuffix s).drop 17 = runIdSuffix s
      have hshape : formatTsBasic now ++ '_' :: '#' :: runIdSuffix s
          = (formatTsBasic now ++ ['_', '#']) ++ runIdSuffix s := by simp
      have hplen : (formatTsBasic now ++ ['_', '#']).length = 17 := by
        simp [formatTsBasic_length]
      rw [hshape, ← hplen, List.drop_left]
    · show (formatTsBasic now ++ '_' :: '#' :: runIdSuffix s).take 15 = formatTsBasic now
      have := formatTsBasic_length now
      rw [← this, List.take_left]
  · intro hm
    constructor
    · simp [make_silver_run_id_from_bronze, hm]
    · simp [make_gold_run_id_from_silver, hm]

/-- Witness: the C9 derivation evaluated on a concrete parent id and
timestamp. -/
theorem claim_C9_witness :
    (⟨2026, 10, 12, 9, 30, 5⟩ : PTimestamp).Valid ∧
    runIdMatches "20250101_120000_#abc123" = true ∧
    (∃ r : String,
      make_silver_run_id_from_bronze "20250101_120000_#abc123"
          ⟨2026, 10, 12, 9, 30, 5⟩ = Except.ok r ∧
      make_gold_run_id_from_silver "20250101_120000_#abc123"
          ⟨2026, 10, 12, 9, 30, 5⟩ = Except.ok r ∧
      runIdMatches r = true ∧
      runIdSuffix r = runIdSuffix "20250101_120000_#abc123" ∧
      runIdTs r = formatTsBasic ⟨2026, 10, 12, 9, 30, 5⟩) ∧
    runIdMatches "not-a-run-id" = false ∧
    make_silver_run_id_from_bronze "not-a-run-id" ⟨2026, 10, 12, 9, 30, 5⟩ =
      Except.error ("Invalid bronze run id format: " ++ "not-a-run-id") := by
  have hv : (⟨2026, 10, 12, 9, 30, 5⟩ : PTimestamp).Valid := by decide
  have h1 := (claim_C9_run_id_derivation "20250101_120000_#abc123"
    ⟨2026, 10, 12, 9, 30, 5⟩ hv).1 (by decide)
  have h2 := (claim_C9_run_id_derivation "not-a-run-id"
    ⟨2026, 10, 12, 9, 30, 5⟩ hv).2 (by decide)
  exact ⟨hv, by decide, h1, by decide, h2.1⟩

/-- Counterexample to claim C10: a run id generated by
`golden_path._generate_run_id` (here at a concrete clock reading with the
random draw `ABCD`) is rejected by `RUN_ID_RE` — the claim asserts it would
be accepted. -/
theorem claim_C10_counterexample :
    runIdMatches (generate_run_id ⟨2026, 10, 12, 8, 30, 0⟩ ['A', 'B', 'C', 'D'])
      = false := by
  decide

/-- Claim C10 as amended: every run id generated by
`golden_path._generate_run_id` has the shape `YYYYMMDDTHHMMSSZ_<letters>` and
is never accepted by the validating regex `RUN_ID_RE` of the downstream
layers (the ninth character is `T`, not the `_` the pattern requires). -/
theorem claim_C10_amended (t : PTimestamp) (suffix : List Char) :
    runIdMatches (generate_run_id t suffix) = false := by
  have hd : (generate_run_id t suffix).data
      = (padDigits 4 t.year ++ padDigits 2 t.month ++ padDigits 2 t.day)
        ++ 'T' :: (padDigits 2 t.hour ++ padDigits 2 t.minute ++
          padDigits 2 t.second ++ 'Z' :: '_' :: suffix) := by
    show generateRunIdTs t ++ '_' :: suffix = _
    simp [generateRunIdTs]
  have h8 : consumeDigits 8
      ((padDigits 4 t.year ++ padDigits 2 t.month ++ padDigits 2 t.day)
        ++ 'T' :: (padDigits 2 t.hour ++ padDigits 2 t.minute ++
          padDigits 2 t.second ++ 'Z' :: '_' :: suffix))
      = some ('T' :: (padDigits 2 t.hour ++ padDigits 2 t.minute ++
          padDigits 2 t.second ++ 'Z' :: '_' :: suffix)) := by
    refine consumeDigits_append (by simp [padDigits_length]) ?_
    intro c hc
    rcases List.mem_append.mp hc with hc | hc
    · rcases List.mem_append.mp hc with hc | hc
      · exact padDigits_isDigit _ _ c hc
      · exact padDigits_isDigit _ _ c hc
    · exact padDigits_isDigit _ _ c hc
  unfold runIdMatches runIdMatchesL
  rw [hd, h8]
  simp

theorem runSteps_none {l : List (String × Option String)}
    (h : (runSteps l).2 = none) : ∀ p ∈ (runSteps l).1, p.2 = "success" := by
  induction l with
  | nil => intro p hp; simp [runSteps] at hp
  | cons a rest ih =>
    obtain ⟨n, o⟩ := a
    cases o with
    | none =>
      simp only [runSteps] at h ⊢
      intro p hp
      rcases List.mem_cons.mp hp with hp | hp
      · rw [hp]
      · exact ih h p hp
    | some m => simp [runSteps] at h

theorem runSteps_some {l : List (String × Option String)} {m : String}
    (h : (runSteps l).2 = some m) :
    ∃ pre name, (runSteps l).1 = pre ++ [(name, "failure: " ++ m)] ∧
      ∀ p ∈ pre, p.2 = "success" := by
  induction l with
  | nil => simp [runSteps] at h
  | cons a rest ih =>
    obtain ⟨n, o⟩ := a
    cases o with
    | none =>
      simp only [runSteps] at h ⊢
      obtain ⟨pre, name, hpre, hall⟩ := ih h
      refine ⟨(n, "success") :: pre, name, by simp [hpre], ?_⟩
      intro p hp
      rcases List.mem_cons.mp hp with hp | hp
      · rw [hp]
      · exact hall p hp
    | some m' =>
      simp only [runSteps] at h ⊢
      obtain rfl : m' = m := by simpa using h
      exact ⟨[], n, by simp, by simp⟩

/-- Counterexample to claim C1: a run whose Bronze step raises.  The failing
status is recorded and the exception is re-raised, but `run_pipeline` writes
neither `run_manifest.json` nor `data_policy.json` — the claim asserts that
a failed run still gets its manifest and policy before the exception
propagates. -/
theorem claim_C1_counterexample :
    (run_pipeline ⟨some "boom", none, none, none, none, none, none⟩).raised
        = some "boom" ∧
    (run_pipeline ⟨some "boom", none, none, none, none, none, none⟩).stepStatus
        = [("bronze", "failure: boom")] ∧
    (run_pipeline ⟨some "boom", none, none, none, none, none, none⟩).manifestWritten
        = false ∧
    (run_pipeline ⟨some "boom", none, none, none, none, none, none⟩).policyWritten
        = false := by
  decide

/-- Claim C1 as amended: on a step raising, `run_pipeline` records that
step's status as `failure: <message>` after recording `success` for each
earlier step, and re-raises immediately; `run_manifest.json` and
`data_policy.json` are written only when every step succeeds, so a failed
run is left without a manifest. -/
theorem claim_C1_amended (s : PipelineSteps) :
    ((run_pipeline s).raised = none →
      (run_pipeline s).manifestWritten = true ∧
      (run_pipeline s).policyWritten = true ∧
      ∀ p ∈ (run_pipeline s).stepStatus, p.2 = "success") ∧
    (∀ m, (run_pipeline s).raised = some m →
      (run_pipeline s).manifestWritten = false ∧
      (run_pipeline s).policyWritten = false ∧
      ∃ pre name, (run_pipeline s).stepStatus = pre ++ [(name, "failure: " ++ m)] ∧
        ∀ p ∈ pre, p.2 = "success") := by
  constructor
  · intro h
    have h' : (runSteps (stepList s)).2 = none := h
    refine ⟨?_, ?_, runSteps_none h'⟩ <;>
      simp [run_pipeline, h']
  · intro m h
    have h' : (runSteps (stepList s)).2 = some m := h
    refine ⟨?_, ?_, runSteps_some h'⟩ <;>
      simp [run_pipeline, h']

/-- Witness for the amended C1: both branches evaluated on concrete runs. -/
theorem claim_C1_amended_witness :
    ((run_pipeline ⟨none, none, none, none, none, none, none⟩).manifestWritten = true ∧
      (run_pipeline ⟨none, none, none, none, none, none, none⟩).policyWritten = true ∧
      ∀ p ∈ (run_pipeline ⟨none, none, none, none, none, none, none⟩).stepStatus,
        p.2 = "success") ∧
    ((run_pipeline ⟨none, some "io error", none, none, none, none, none⟩).manifestWritten
        = false ∧
      (run_pipeline ⟨none, some "io error", none, none, none, none, none⟩).policyWritten
        = false ∧
      ∃ pre name,
        (run_pipeline ⟨none, some "io error", none, none, none, none, none⟩).stepStatus
          = pre ++ [(name, "failure: " ++ "io error")] ∧
        ∀ p ∈ pre, p.2 = "success") := by
  constructor
  · exact (claim_C1_amended ⟨none, none, none, none, none, none, none⟩).1 (by decide)
  · exact (claim_C1_amended ⟨none, some "io error", none, none, none, none, none⟩).2
      "io error" (by decide)

/-- Counterexample to claim C2: a write of two chunks failing after the
first leaves the destination present with half-written content `[1]` — the
claim asserts the destination would be absent after a mid-write failure. -/
theorem claim_C2_counterexample :
    (directWrite [[1], [2]] (some 1)).2 = true ∧
    (directWrite [[1], [2]] (some 1)).1.dest = some [1] ∧
    ¬ (directWrite [[1], [2]] (some 1)).1.dest = none := by
  decide

/-- Claim C2 as amended: the raw-file copy in Bronze and the table write in
the upstream Gold runner are direct, not atomic — no temp sibling ever
exists; on success the destination holds exactly the full content; a failure
mid-write raises but can leave a partially-written destination file (the
prefix of chunks already written). -/
theorem claim_C2_amended (chunks : List (List Nat)) (failAfter : Option Nat) :
    (directWrite chunks failAfter).1.tmp = none ∧
    (failAfter = none →
      (directWrite chunks failAfter).2 = false ∧
      (directWrite chunks failAfter).1.dest = some chunks.flatten) ∧
    (∀ k, failAfter = some k →
      (directWrite chunks failAfter).2 = true ∧
      (directWrite chunks failAfter).1.dest = some ((chunks.take k).flatten)) := by
  cases failAfter <;> simp [directWrite]

theorem mapColumn_rows_length (df : Df) (c : String) (f : Cell → Cell) :
    (mapColumn df c f).rows.length = df.rows.length := by
  unfold mapColumn
  cases idxOf? df.header c <;> simp

theorem mapColumn_header (df : Df) (c : String) (f : Cell → Cell) :
    (mapColumn df c f).header = df.header := by
  unfold mapColumn
  cases idxOf? df.header c <;> simp

theorem mapCells_rows_length (df : Df) (f : Cell → Cell) :
    (mapCells df f).rows.length = df.rows.length := by
  simp [mapCells]

/-- Claim C4: the Silver cleaning transform returns a table with exactly as
many rows as its input — for every table name and every input table,
`rows_out = rows_in`; cleaning only rewrites cells and never drops or adds
rows. -/
theorem claim_C4_row_count_preserved (filename : String) (df : Df) :
    (transform_for_silver filename df).rows.length = df.rows.length := by
  unfold transform_for_silver
  by_cases h : lowerStr filename = "cst_info.csv"
  · rw [if_pos h]
    unfold transform_cst_info
    simp [mapCells_rows_length, mapColumn_rows_length,
      normalize_date_column, normalize_integer_id, base_silver_cleaning]
  · rw [if_neg h]
    simp [base_silver_cleaning, mapCells_rows_length]

/-! ### String facts used by the gender-harmonization analysis -/

theorem dropWhile_head?_false {p : Char → Bool} :
    ∀ {l : List Char} {c : Char}, (l.dropWhile p).head? = some c → p c = false := by
  intro l
  induction l with
  | nil => intro c h; simp at h
  | cons a t ih =>
    intro c h
    rw [List.dropWhile_cons] at h
    by_cases hp : p a
    · rw [if_pos hp] at h; exact ih h
    · rw [if_neg hp] at h
      have : a = c := by simpa using h
      rw [← this]
      simpa using hp

theorem dropWhile_eq_self {p : Char → Bool} {l : List Char}
    (h : ∀ c, l.head? = some c → p c = false) : l.dropWhile p = l := by
  cases l with
  | nil => rfl
  | cons a t =>
    rw [List.dropWhile_cons, if_neg]
    simp [h a rfl]

theorem dropWhile_idem {p : Char → Bool} {l : List Char} :
    (l.dropWhile p).dropWhile p = l.dropWhile p :=
  dropWhile_eq_self (fun _ hc => dropWhile_head?_false hc)

theorem dropWhile_getLast? {p : Char → Bool} {l : List Char}
    (h : l.dropWhile p ≠ []) : (l.dropWhile p).getLast? = l.getLast? := by
  induction l with
  | nil => simp at h
  | cons a t ih =>
    rw [List.dropWhile_cons] at h ⊢
    by_cases hp : p a
    · rw [if_pos hp] at h ⊢
      cases t with
      | nil => simp at h
      | cons b t2 =>
        rw [ih h]
        exact (List.getLast?_cons_cons).symm
    · rw [if_neg hp]

theorem stripChars_idem (l : List Char) : stripChars (stripChars l) = stripChars l := by
  unfold stripChars
  have hA : ((l.dropWhile isSpaceChar).reverse.dropWhile isSpaceChar).reverse.dropWhile
      isSpaceChar
      = ((l.dropWhile isSpaceChar).reverse.dropWhile isSpaceChar).reverse := by
    apply dropWhile_eq_self
    intro c hc
    rw [List.head?_reverse] at hc
    have hxne : (l.dropWhile isSpaceChar).reverse.dropWhile isSpaceChar ≠ [] := by
      intro hxe; rw [hxe] at hc; simp at hc
    rw [dropWhile_getLast? hxne, List.getLast?_reverse] at hc
    exact dropWhile_head?_false hc
  rw [hA, List.reverse_reverse, dropWhile_idem]

theorem stripStr_idem (v : String) : stripStr (stripStr v) = stripStr v := by
  unfold stripStr
  rw [show (String.mk (stripChars v.data)).data = stripChars v.data from rfl,
    stripChars_idem]

theorem toUpper_isLower_false (c : Char) : (Char.toUpper c).isLower = false := by
  unfold Char.toUpper
  by_cases h : c.toNat ≥ 97 ∧ c.toNat ≤ 122
  · rw [if_pos h]
    obtain ⟨h1, h2⟩ := h
    set n := c.toNat with hn
    interval_cases n <;> decide
  · rw [if_neg h]
    cases hb : c.isLower
    · rfl
    · exfalso
      apply h
      unfold Char.isLower at hb
      simp only [Bool.and_eq_true, decide_eq_true_eq] at hb
      obtain ⟨hb1, hb2⟩ := hb
      exact ⟨UInt32.le_toNat_of_le (by decide) hb1, UInt32.toNat_le_of_le (by decide) hb2⟩

/-- An upper-cased string can never equal a word containing a lowercase
letter. -/
theorem upperStr_ne_of_lower {w : String} {c : Char} (hc : c ∈ w.data)
    (hlow : c.isLower = true) (t : String) : upperStr t ≠ w := by
  intro h
  have hd : t.data.map Char.toUpper = w.data := congrArg String.data h
  rw [← hd] at hc
  obtain ⟨a, _, ha⟩ := List.mem_map.mp hc
  rw [← ha, toUpper_isLower_false] at hlow
  exact absurd hlow (by simp)

theorem upperStr_ne_empty {t : String} (ht : t ≠ "") : upperStr t ≠ "" := by
  intro h
  apply ht
  have hd : t.data.map Char.toUpper = ([] : List Char) := congrArg String.data h
  have hnil : t.data = [] := by simpa using hd
  cases t with
  | mk d =>
    simp only at hnil
    rw [hnil]

/-! ### Cell plumbing lemmas -/

theorem updateAt_nil (i : Nat) (f : Cell → Cell) : updateAt i f [] = [] := by
  cases i <;> rfl

theorem getD_map_fixed {α : Type} {d : α} {f : α → α} (hf : f d = d)
    (l : List α) (i : Nat) : (l.map f).getD i d = f (l.getD i d) := by
  induction l generalizing i with
  | nil => simp [hf]
  | cons a t ih =>
    cases i with
    | zero => simp
    | succ j => simpa using ih j

theorem updateAt_getD_ne {i j : Nat} (hij : i ≠ j) (f : Cell → Cell)
    (r : List Cell) : (updateAt j f r).getD i Cell.na = r.getD i Cell.na := by
  induction r generalizing i j with
  | nil => rw [updateAt_nil]
  | cons a t ih =>
    cases j with
    | zero =>
      cases i with
      | zero => exact absurd rfl hij
      | succ i2 => simp [updateAt]
    | succ j2 =>
      cases i with
      | zero => simp [updateAt]
      | succ i2 =>
        simp only [updateAt, List.getD_cons_succ]
        exact ih (fun h => hij (by rw [h]))

theorem updateAt_getD_self {f : Cell → Cell} (hf : f Cell.na = Cell.na)
    (r : List Cell) (i : Nat) :
    (updateAt i f r).getD i Cell.na = f (r.getD i Cell.na) := by
  induction r generalizing i with
  | nil => rw [updateAt_nil]; simp [hf]
  | cons a t ih =>
    cases i with
    | zero => simp [updateAt]
    | succ j => simpa [updateAt] using ih j

theorem idxOf?_get {h : List String} {c : String} {i : Nat}
    (hi : idxOf? h c = some i) : h[i]? = some c := by
  induction h generalizing i with
  | nil => simp [idxOf?] at hi
  | cons a t ih =>
    simp only [idxOf?] at hi
    by_cases hac : a = c
    · rw [if_pos hac] at hi
      have : i = 0 := by simpa using hi.symm
      rw [this, hac]
      simp
    · rw [if_neg hac] at hi
      cases hj : idxOf? t c with
      | none => rw [hj] at hi; simp at hi
      | some j =>
        rw [hj] at hi
        have : j + 1 = i := by simpa using hi
        rw [← this]
        simpa using ih hj

theorem ne_col_of_name {h : List String} {i : Nat} {a b : String}
    (hname : h[i]? = some a) (hab : a ≠ b) : ¬ h[i]? = some b := by
  intro hcontra
  rw [hname] at hcontra
  exact hab (by simpa using hcontra)

theorem mapColumn_getCell_ne (df : Df) (c : String) (f : Cell → Cell) {i : Nat}
    (j : Nat) (hname : ¬ df.header[i]? = some c) :
    getCell ((mapColumn df c f).rows.getD j []) i
      = getCell (df.rows.getD j []) i := by
  unfold mapColumn
  cases hk : idxOf? df.header c with
  | none => rfl
  | some k =>
    have hkc : df.header[k]? = some c := idxOf?_get hk
    have hik : i ≠ k := fun h => hname (h ▸ hkc)
    show getCell ((df.rows.map (updateAt k f)).getD j []) i = _
    rw [getD_map_fixed (updateAt_nil k f)]
    exact updateAt_getD_ne hik f _

theorem mapColumn_getCell_self (df : Df) (c : String) (f : Cell → Cell) {i : Nat}
    (j : Nat) (hidx : idxOf? df.header c = some i) (hf : f Cell.na = Cell.na) :
    getCell ((mapColumn df c f).rows.getD j []) i
      = f (getCell (df.rows.getD j []) i) := by
  unfold mapColumn
  rw [hidx]
  show getCell ((df.rows.map (updateAt i f)).getD j []) i = _
  rw [getD_map_fixed (updateAt_nil i f)]
  exact updateAt_getD_self hf _ i

theorem mapCells_getCell (df : Df) {f : Cell → Cell} (hf : f Cell.na = Cell.na)
    (i j : Nat) :
    getCell ((mapCells df f).rows.getD j []) i
      = f (getCell (df.rows.getD j []) i) := by
  unfold mapCells
  show getCell ((df.rows.map (fun r => r.map f)).getD j []) i = _
  rw [getD_map_fixed (by simp)]
  unfold getCell
  exact getD_map_fixed hf _ i

theorem mapCells_header (df : Df) (f : Cell → Cell) :
    (mapCells df f).header = df.header := rfl

theorem gndr_composite (c : Cell) :
    sentinelCell (gndrCell (stripCell c)) = gndrSpecMap c := by
  cases c with
  | na => rfl
  | num v => rfl
  | s v =>
    by_cases ht : stripStr v = ""
    · have hu : upperStr (stripStr v) = "" := by rw [ht]; rfl
      simp +decide [stripCell, gndrCell, sentinelCell, gndrSpecMap, ht, hu]
    · have hstrip : stripCell (Cell.s v) = Cell.s (stripStr v) := by
        simp [stripCell, ht]
      rw [hstrip]
      have hgu : upperStr (stripStr (stripStr v)) = upperStr (stripStr v) := by
        rw [stripStr_idem]
      simp only [gndrCell, gndrSpecMap, hgu]
      by_cases h1 : upperStr (stripStr v) = "MALE"
      · simp +decide [h1, sentinelCell]
      by_cases h2 : upperStr (stripStr v) = "FEMALE"
      · simp +decide [h1, h2, sentinelCell]
      by_cases h3 : upperStr (stripStr v) = "F"
      · simp +decide [h1, h2, h3, sentinelCell]
      by_cases h4 : upperStr (stripStr v) = "M"
      · simp +decide [h1, h2, h3, h4, sentinelCell]
      have h5 : ¬ upperStr (stripStr v) = "" := upperStr_ne_empty ht
      by_cases h6 : upperStr (stripStr v) = "NAN"
      · simp +decide [h1, h2, h3, h4, h5, h6, sentinelCell]
      by_cases h7 : upperStr (stripStr v) = "NONE"
      · simp +decide [h1, h2, h3, h4, h5, h6, h7, sentinelCell]
      by_cases h8 : upperStr (stripStr v) = "NULL"
      · simp +decide [h1, h2, h3, h4, h5, h6, h7, h8, sentinelCell]
      have hn1 : upperStr (stripStr v) ≠ "nan" :=
        upperStr_ne_of_lower (w := "nan") (c := 'n') (by decide) (by decide) _
      have hn2 : upperStr (stripStr v) ≠ "NaN" :=
        upperStr_ne_of_lower (w := "NaN") (c := 'a') (by decide) (by decide) _
      have hn3 : upperStr (stripStr v) ≠ "null" :=
        upperStr_ne_of_lower (w := "null") (c := 'n') (by decide) (by decide) _
      simp [h1, h2, h3, h4, h5, h6, h7, h8, hn1, hn2, hn3, sentinelCell]

/-- Counterexample to claim C6: the cst_info table whose single gender value
is `Other` — the cleaned cell is `OTHER`, which is neither `M` nor `F` nor
missing.  The claim asserts every unrecognized value maps to missing. -/
theorem claim_C6_counterexample :
    (transform_cst_info { header := ["cst_gndr"], rows := [[Cell.s "Other"]] }).rows
      = [[Cell.s "OTHER"]] ∧
    Cell.s "OTHER" ≠ Cell.s "M" ∧ Cell.s "OTHER" ≠ Cell.s "F" ∧
    Cell.s "OTHER" ≠ Cell.na := by
  refine ⟨by decide, by decide, by decide, by decide⟩

/-- Claim C6 as amended: in the Silver cleaning of a cst_info table, every
gender value whose stripped upper-cased form is `MALE`/`FEMALE`/`M`/`F` maps
to canonical `M`/`F`, the whitespace-only and `NAN`/`NONE`/`NULL` sentinels
map to missing, and every other value remains as its stripped upper-cased
form (so the cleaned column is not restricted to `M`/`F`/missing). -/
theorem claim_C6_amended (df : Df) (i j : Nat)
    (hidx : idxOf? df.header "cst_gndr" = some i) :
    getCell ((transform_cst_info df).rows.getD j []) i
      = gndrSpecMap (getCell (df.rows.getD j []) i) := by
  have hname : df.header[i]? = some "cst_gndr" := idxOf?_get hidx
  unfold transform_cst_info
  have hh1 : (base_silver_cleaning df).header = df.header := rfl
  have hh2 : (normalize_integer_id (base_silver_cleaning df) "cst_id").header
      = df.header := by
    rw [normalize_integer_id, mapColumn_header, hh1]
  have hh3 : (normalize_date_column
      (normalize_integer_id (base_silver_cleaning df) "cst_id")
      "cst_create_date").header = df.header := by
    rw [normalize_date_column, mapColumn_header, hh2]
  have hh4 : (mapColumn (normalize_date_column
      (normalize_integer_id (base_silver_cleaning df) "cst_id")
      "cst_create_date") "cst_firstname" stripCell).header = df.header := by
    rw [mapColumn_header, hh3]
  have hh5 : (mapColumn (mapColumn (normalize_date_column
      (normalize_integer_id (base_silver_cleaning df) "cst_id")
      "cst_create_date") "cst_firstname" stripCell)
      "cst_lastname" stripCell).header = df.header := by
    rw [mapColumn_header, hh4]
  have hh6 : (mapColumn (mapColumn (mapColumn (normalize_date_column
      (normalize_integer_id (base_silver_cleaning df) "cst_id")
      "cst_create_date") "cst_firstname" stripCell)
      "cst_lastname" stripCell) "cst_marital_status" stripCell).header
      = df.header := by
    rw [mapColumn_header, hh5]
  rw [mapCells_getCell _ rfl i j]
  rw [mapColumn_getCell_self _ _ _ j (by rw [hh6]; exact hidx) rfl]
  rw [mapColumn_getCell_ne _ _ _ j
    (by rw [hh5]; exact ne_col_of_name hname (by decide))]
  rw [mapColumn_getCell_ne _ _ _ j
    (by rw [hh4]; exact ne_col_of_name hname (by decide))]
  rw [mapColumn_getCell_ne _ _ _ j
    (by rw [hh3]; exact ne_col_of_name hname (by decide))]
  rw [show normalize_date_column (normalize_integer_id (base_silver_cleaning df)
    "cst_id") "cst_create_date" = mapColumn (normalize_integer_id
    (base_silver_cleaning df) "cst_id") "cst_create_date" toDateCell from rfl]
  rw [mapColumn_getCell_ne _ _ _ j
    (by rw [hh2]; exact ne_col_of_name hname (by decide))]
  rw [show normalize_integer_id (base_silver_cleaning df) "cst_id"
    = mapColumn (base_silver_cleaning df) "cst_id" toNumericCell from rfl]
  rw [mapColumn_getCell_ne _ _ _ j
    (by rw [hh1]; exact ne_col_of_name hname (by decide))]
  rw [show base_silver_cleaning df = mapCells df stripCell from rfl]
  rw [mapCells_getCell _ rfl i j]
  exact gndr_composite _

/-- Witness for the amended C6: a whitespace-padded `male` cleaned on a
concrete one-column table. -/
theorem claim_C6_amended_witness :
    idxOf? (["cst_gndr"] : List String) "cst_gndr" = some 0 ∧
    getCell ((transform_cst_info
        { header := ["cst_gndr"], rows := [[Cell.s " male "]] }).rows.getD 0 []) 0
      = gndrSpecMap (getCell
          ((({ header := ["cst_gndr"], rows := [[Cell.s " male "]] } : Df)).rows.getD 0 []) 0) :=
  ⟨by decide,
    claim_C6_amended { header := ["cst_gndr"], rows := [[Cell.s " male "]] } 0 0 (by decide)⟩

/-! ### Deduplication lemmas (for the fact table, claim C7) -/

theorem dedupGo_length {κ : Type} [DecidableEq κ] (key : List Cell → κ) :
    ∀ (l : List (List Cell)) (seen : List κ),
      (dedupGo key l seen).length ≤ l.length := by
  intro l
  induction l with
  | nil => intro seen; simp [dedupGo]
  | cons a t ih =>
    intro seen
    simp only [dedupGo]
    by_cases h : key a ∈ seen
    · rw [if_pos h]
      exact Nat.le_succ_of_le (ih seen)
    · rw [if_neg h]
      simpa using ih (key a :: seen)

theorem dedupGo_keepFirst {κ : Type} [DecidableEq κ] (key : List Cell → κ) :
    ∀ (l : List (List Cell)) (seen : List κ), ∀ r ∈ dedupGo key l seen,
      key r ∉ seen ∧ l.find? (fun x => decide (key x = key r)) = some r := by
  intro l
  induction l with
  | nil => intro seen r hr; simp [dedupGo] at hr
  | cons a t ih =>
    intro seen r hr
    simp only [dedupGo] at hr
    by_cases h : key a ∈ seen
    · rw [if_pos h] at hr
      obtain ⟨hseen, hfind⟩ := ih seen r hr
      have hne : key a ≠ key r := fun he => hseen (he ▸ h)
      refine ⟨hseen, ?_⟩
      rw [List.find?_cons_of_neg _ (by simpa using hne), hfind]
    · rw [if_neg h] at hr
      rcases List.mem_cons.mp hr with rfl | hr
      · exact ⟨h, List.find?_cons_of_pos _ (by simp)⟩
      · obtain ⟨hseen, hfind⟩ := ih (key a :: seen) r hr
        have hne : key a ≠ key r := fun he => hseen (by rw [← he]; exact List.mem_cons_self _ _)
        refine ⟨fun hc => hseen (List.mem_cons_of_mem _ hc), ?_⟩
        rw [List.find?_cons_of_neg _ (by simpa using hne), hfind]

theorem dedupGo_covers {κ : Type} [DecidableEq κ] (key : List Cell → κ) :
    ∀ (l : List (List Cell)) (seen : List κ), ∀ x ∈ l,
      key x ∈ seen ∨ ∃ r ∈ dedupGo key l seen, key r = key x := by
  intro l
  induction l with
  | nil => intro seen x hx; simp at hx
  | cons a t ih =>
    intro seen x hx
    simp only [dedupGo]
    by_cases h : key a ∈ seen
    · rw [if_pos h]
      rcases List.mem_cons.mp hx with rfl | hx
      · exact Or.inl h
      · exact ih seen x hx
    · rw [if_neg h]
      rcases List.mem_cons.mp hx with rfl | hx
      · exact Or.inr ⟨x, List.mem_cons_self _ _, rfl⟩
      · rcases ih (key a :: seen) x hx with hmem | ⟨r, hr, hk⟩
        · rcases List.mem_cons.mp hmem with he | hmem
          · exact Or.inr ⟨a, List.mem_cons_self _ _, he.symm⟩
          · exact Or.inl hmem
        · exact Or.inr ⟨r, List.mem_cons_of_mem _ hr, hk⟩

theorem dedupGo_keys_nodup {κ : Type} [DecidableEq κ] (key : List Cell → κ) :
    ∀ (l : List (List Cell)) (seen : List κ),
      ((dedupGo key l seen).map key).Nodup := by
  intro l
  induction l with
  | nil => intro seen; simp [dedupGo]
  | cons a t ih =>
    intro seen
    simp only [dedupGo]
    by_cases h : key a ∈ seen
    · rw [if_pos h]; exact ih seen
    · rw [if_neg h]
      simp only [List.map_cons, List.nodup_cons]
      refine ⟨?_, ih (key a :: seen)⟩
      intro hmem
      obtain ⟨r, hr, hk⟩ := List.mem_map.mp hmem
      have := (dedupGo_keepFirst key t (key a :: seen) r hr).1
      exact this (by rw [hk]; exact List.mem_cons_self _ _)

theorem ensureCols_rows_length (cols : List String) (df : Df) :
    (ensureCols df cols).rows.length = df.rows.length := by
  simp [ensureCols]

/-- Claim C7: `build_gold_fact_sales` deduplicates on the composite
`(sls_ord_num, sls_prd_key)` key: its rows are the key-wise first
occurrences (in source row order) of the column-completed sales rows,
projected to the fact schema; every input row's key is represented, the
emitted keys are pairwise distinct (exactly one row per distinct key), later
duplicates are silently dropped, and the fact row count is at most the
input sales row count. -/
theorem claim_C7_fact_dedup (sales : Df) :
    let f := ensureCols sales factSalesCols
    let key := rowKey f ["sls_ord_num", "sls_prd_key"]
    let dd := dedupGo key f.rows []
    (build_gold_fact_sales sales).rows
        = dd.map (fun r => factSalesCols.map
            (fun c => getColCell (drop_duplicates f ["sls_ord_num", "sls_prd_key"]) c r)) ∧
    (build_gold_fact_sales sales).rows.length ≤ sales.rows.length ∧
    (∀ r ∈ dd, f.rows.find? (fun x => decide (key x = key r)) = some r) ∧
    (∀ x ∈ f.rows, ∃ r ∈ dd, key r = key x) ∧
    (dd.map key).Nodup := by
  intro f key dd
  refine ⟨rfl, ?_, ?_, ?_, dedupGo_keys_nodup key f.rows []⟩
  · show (dd.map _).length ≤ sales.rows.length
    rw [List.length_map]
    calc dd.length ≤ f.rows.length := dedupGo_length key f.rows []
    _ = sales.rows.length := ensureCols_rows_length factSalesCols sales
  · intro r hr
    exact (dedupGo_keepFirst key f.rows [] r hr).2
  · intro x hx
    rcases dedupGo_covers key f.rows [] x hx with hmem | h
    · simp at hmem
    · exact h

/-- Witness for C7: on the concrete duplicate-key table the fact rows are
the two first occurrences, the keep-first `find?` property holds for the
kept first row, and the count shrank below the input count. -/
theorem claim_C7_witness :
    (build_gold_fact_sales c7Sales).rows.length ≤ c7Sales.rows.length ∧
    (build_gold_fact_sales c7Sales).rows = [c7row1, c7row2] ∧
    (ensureCols c7Sales factSalesCols).rows.find? (fun x =>
        decide (rowKey (ensureCols c7Sales factSalesCols) ["sls_ord_num", "sls_prd_key"] x
          = rowKey (ensureCols c7Sales factSalesCols) ["sls_ord_num", "sls_prd_key"] c7row1))
      = some c7row1 := by
  have h := claim_C7_fact_dedup c7Sales
  exact ⟨h.2.1, by decide, h.2.2.1 c7row1 (by decide)⟩

/-! ### Executive-KPI ratios (claim C8) -/

/-- Claim C8: every ratio cell of the executive-KPI mart comes from
`safe_div` over its group's aggregates — Average Order Value (index 5) is
the exact quotient `totalSales / orderCount` when the order count is
non-zero and missing when it is zero, and Customer Lifetime Value (index 3)
likewise over the customer count; the computation is a total function (no
exception) and, values being rationals, neither NaN nor Inf exists. -/
theorem claim_C8_safe_ratios (fact dim : Df) :
    (build_gold_agg_exec_kpis fact dim).header = execKpiOutCols ∧
    (build_gold_agg_exec_kpis fact dim).rows = (aggGroups fact dim).map kpiProject ∧
    ∀ g ∈ aggGroups fact dim,
      (kpiProject g).getD 5 Cell.na
          = (if g.orderCount = 0 then Cell.na
             else Cell.num (g.totalSales / (g.orderCount : Rat))) ∧
      (kpiProject g).getD 3 Cell.na
          = (if g.customerCount = 0 then Cell.na
             else Cell.num (g.totalSales / (g.customerCount : Rat))) := by
  refine ⟨rfl, rfl, ?_⟩
  intro g _
  constructor
  · by_cases h : g.orderCount = 0
    · simp [kpiProject, safe_div, cellOfOpt, h]
    · have hne : ((g.orderCount : Rat)) ≠ 0 := by exact_mod_cast h
      simp [kpiProject, safe_div, cellOfOpt, h, hne]
  · by_cases h : g.customerCount = 0
    · simp [kpiProject, safe_div, cellOfOpt, h]
    · have hne : ((g.customerCount : Rat)) ≠ 0 := by exact_mod_cast h
      simp [kpiProject, safe_div, cellOfOpt, h, hne]

/-- Witness for C8: the 2020-01/`S` group of the concrete run, where both
denominators are 1 and the Average Order Value is the exact quotient. -/
theorem claim_C8_witness :
    (⟨Cell.s "2020-01", Cell.s "S", 100, 1, 1⟩ : AggRow) ∈ aggGroups c8Fact c8Dim ∧
    (kpiProject ⟨Cell.s "2020-01", Cell.s "S", 100, 1, 1⟩).getD 5 Cell.na
        = (if (⟨Cell.s "2020-01", Cell.s "S", 100, 1, 1⟩ : AggRow).orderCount = 0
           then Cell.na
           else Cell.num ((⟨Cell.s "2020-01", Cell.s "S", 100, 1, 1⟩ : AggRow).totalSales
             / ((⟨Cell.s "2020-01", Cell.s "S", 100, 1, 1⟩ : AggRow).orderCount : Rat))) := by
  have hmem : (⟨Cell.s "2020-01", Cell.s "S", 100, 1, 1⟩ : AggRow)
      ∈ aggGroups c8Fact c8Dim := by
    with_unfolding_all decide
  exact ⟨hmem, ((claim_C8_safe_ratios c8Fact c8Dim).2.2 _ hmem).1⟩

/-- Counterexample to claim C3: the gold customer dimension built from a
concrete cst_info table carries the `cst_firstname`/`cst_lastname` columns
and the raw values `Alice`/`Smith` — the claim asserts the customer
dimension's schema excludes those columns and no raw name value appears in
any mart output. -/
theorem claim_C3_counterexample :
    "cst_firstname" ∈ (build_gold_dim_customer c3CstInfo none none).header ∧
    "cst_lastname" ∈ (build_gold_dim_customer c3CstInfo none none).header ∧
    getCell ((build_gold_dim_customer c3CstInfo none none).rows.getD 0 []) 2
        = Cell.s "Alice" ∧
    getCell ((build_gold_dim_customer c3CstInfo none none).rows.getD 0 []) 3
        = Cell.s "Smith" := by
  refine ⟨by decide, by decide, by decide, by decide⟩

/-- Claim C3 as amended: among the gold marts only the customer dimension
carries raw name columns — its output schema is exactly
`dimCustomerOutCols`, which includes `cst_firstname` and `cst_lastname` —
while the product and location dimensions, the sales fact, the three
aggregates and the wide table have schemas without any first/last-name
column. -/
theorem claim_C3_amended (cst prd l sales fact dimC dimP dimL : Df)
    (az px locO : Option Df) :
    (build_gold_dim_customer cst az locO).header = dimCustomerOutCols ∧
    "cst_firstname" ∈ dimCustomerOutCols ∧
    "cst_lastname" ∈ dimCustomerOutCols ∧
    (build_gold_dim_product prd px).header = dimProductOutCols ∧
    (build_gold_dim_location l).header = dimLocationOutCols ∧
    (build_gold_fact_sales sales).header = factSalesCols ∧
    (build_gold_agg_exec_kpis fact dimC).header = execKpiOutCols ∧
    (build_gold_agg_product_performance fact dimP).header = prodPerfOutCols ∧
    (build_gold_agg_geo_performance fact dimL dimP).header = geoPerfOutCols ∧
    (build_gold_wide_sales_enriched fact dimC dimP dimL).header = wideOutCols ∧
    ("cst_firstname" ∉ dimProductOutCols ∧ "cst_lastname" ∉ dimProductOutCols) ∧
    ("cst_firstname" ∉ dimLocationOutCols ∧ "cst_lastname" ∉ dimLocationOutCols) ∧
    ("cst_firstname" ∉ factSalesCols ∧ "cst_lastname" ∉ factSalesCols) ∧
    ("cst_firstname" ∉ execKpiOutCols ∧ "cst_lastname" ∉ execKpiOutCols) ∧
    ("cst_firstname" ∉ prodPerfOutCols ∧ "cst_lastname" ∉ prodPerfOutCols) ∧
    ("cst_firstname" ∉ geoPerfOutCols ∧ "cst_lastname" ∉ geoPerfOutCols) ∧
    ("cst_firstname" ∉ wideOutCols ∧ "cst_lastname" ∉ wideOutCols) := by
  refine ⟨rfl, by decide, by decide, rfl, rfl, rfl, rfl, rfl, rfl, rfl,
    by decide, by decide, by decide, by decide, by decide, by decide, by decide⟩

/-- Counterexample to claim C5: with exactly one loaded table (cst_info)
missing a required column and every sibling table valid, `main` emits no
marts at all — the claim asserts the error is fatal only for that table and
the sibling marts are still built. -/
theorem claim_C5_counterexample :
    validate_required_columns c5CstBad
        ((REQUIRED_SCHEMAS.lookup "cst_info.csv").getD []) "cst_info.csv"
      = ["cst_info.csv missing columns: [cst_key]"] ∧
    validate_required_columns c5Prd
        ((REQUIRED_SCHEMAS.lookup "prd_info.csv").getD []) "prd_info.csv" = [] ∧
    (gold_main c5Inputs).outputs = [] ∧
    (gold_main c5Inputs).errors
      = ["UNHANDLED gold build failure: ValueError: cst_info.csv missing columns: [cst_key]"] ∧
    (gold_main c5Inputs).status = "partial" := by
  refine ⟨by decide, by decide, by decide, by decide, by decide⟩

/-- Claim C5 as amended: a missing required column on any loaded table
aborts the entire mart build — `main` records a single `UNHANDLED`
validation error, emits no marts (also none for the valid sibling tables),
and reports status `partial`; only a table whose file is absent degrades
per-mart instead. -/
theorem claim_C5_amended (inp : GoldInputs) (msg : String)
    (h : firstErr (validationOrder inp) = some msg) :
    (gold_main inp).outputs = [] ∧
    (gold_main inp).errors = ["UNHANDLED gold build failure: ValueError: " ++ msg] ∧
    (gold_main inp).status = "partial" := by
  unfold gold_main
  rw [h]
  exact ⟨rfl, rfl, rfl⟩

/-- Witness for the amended C5 at the concrete one-bad-table inputs. -/
theorem claim_C5_amended_witness :
    firstErr (validationOrder c5Inputs)
        = some "cst_info.csv missing columns: [cst_key]" ∧
    (gold_main c5Inputs).outputs = [] ∧
    (gold_main c5Inputs).errors
      = ["UNHANDLED gold build failure: ValueError: "
          ++ "cst_info.csv missing columns: [cst_key]"] ∧
    (gold_main c5Inputs).status = "partial" := by
  have h : firstErr (validationOrder c5Inputs)
      = some "cst_info.csv missing columns: [cst_key]" := by decide
  obtain ⟨h1, h2, h3⟩ := claim_C5_amended c5Inputs _ h
  exact ⟨h, h1, h2, h3⟩

/-- Witness for the amended C2: a successful write and a failing write,
evaluated concretely. -/
theorem claim_C2_amended_witness :
    (directWrite [[1], [2]] none).1.tmp = none ∧
    ((directWrite [[1], [2]] none).2 = false ∧
      (directWrite [[1], [2]] none).1.dest = some ([[1], [2]] : List (List Nat)).flatten) ∧
    ((directWrite [[1], [2]] (some 1)).2 = true ∧
      (directWrite [[1], [2]] (some 1)).1.dest
        = some (([[1], [2]] : List (List Nat)).take 1).flatten) := by
  refine ⟨(claim_C2_amended [[1], [2]] none).1,
    (claim_C2_amended [[1], [2]] none).2.1 rfl,
    (claim_C2_amended [[1], [2]] (some 1)).2.2 1 rfl⟩

end DW
